import Mathlib

/-!
Verification development for the EnhancedCarbonTracker core
(src/carbon_tracker.py): entry building, aggregation, insights,
and goal tracking.  Real-valued quantities are modelled by ℚ,
Python dicts by association lists in insertion order, and pandas
dataframes by the list of entry records they are built from.
-/

/-- A calendar day, as parsed from the stored YYYY-MM-DD strings. -/
structure Date where
  year : Nat
  month : Nat
  day : Nat
deriving DecidableEq

/-- Sort key of a date: matches both the lexicographic order of the
zero-padded YYYY-MM-DD string and the chronological order that
pd.to_datetime induces. -/
def Date.key (d : Date) : Nat :=
  d.year * 10000 + d.month * 100 + d.day

/-- Python dict access `m[c]` / `c in m` on an association list:
first binding wins (dict keys are unique in the source, so this is exact). -/
def lookupFirst (c : String) : List (String × ℚ) → Option ℚ
  | [] => none
  | p :: rest => if p.1 = c then some p.2 else lookupFirst c rest

/-- The factor table from EnhancedCarbonTracker.__init__ (kg CO2 per unit),
in declaration order: 0.4, 0.2, 0.2, 0.5, 0.3, 1.2, 0.8. -/
def emission_factors : List (String × ℚ) :=
  [("electricity", 2/5), ("transportation", 1/5), ("heating", 1/5),
   ("waste", 1/2), ("water", 3/10), ("food", 6/5), ("electronics", 4/5)]

/-- One stored entry record, as built by add_entry. -/
structure Entry where
  date : Date
  inputs : List (String × ℚ)
  emissions : List (String × ℚ)
  total_emissions : ℚ
deriving DecidableEq

/-- The emissions dict built inside add_entry: for each (category, value)
of kwargs, if the category is in the factor table the pair
(category, value * factor) is kept, otherwise the pair is dropped. -/
def computeEmissions (kwargs : List (String × ℚ)) : List (String × ℚ) :=
  kwargs.filterMap (fun p =>
    match lookupFirst p.1 emission_factors with
    | some f => some (p.1, p.2 * f)
    | none => none)

/-- EnhancedCarbonTracker.add_entry: builds the entry record with the raw
kwargs as inputs, the computed emissions dict, and
total_emissions = sum(emissions.values()). -/
def add_entry (date : Date) (kwargs : List (String × ℚ)) : Entry :=
  { date := date
    inputs := kwargs
    emissions := computeEmissions kwargs
    total_emissions := ((computeEmissions kwargs).map Prod.snd).sum }

/-- The values held by the dataframe column f'emissions_<category>':
one value per entry whose emissions dict has the category (entries
without it contribute NaN cells, which pandas mean/sum skip).
The column exists in the dataframe iff this list is nonempty. -/
def categoryValues (data : List Entry) (category : String) : List ℚ :=
  data.filterMap (fun e => lookupFirst category e.emissions)

/-- EnhancedCarbonTracker.get_average_emissions: if the column
f'emissions_<category>' exists, its mean (pandas skips the NaN cells,
so the mean runs over exactly the entries where the category is
present); otherwise 0. -/
def get_average_emissions (data : List Entry) (category : String) : ℚ :=
  if categoryValues data category = [] then 0
  else (categoryValues data category).sum / ((categoryValues data category).length : ℚ)

/-- One goal record, as stored by set_goal (and as loaded back from the
goals file by track_goals). -/
structure Goal where
  category : String
  target_value : ℚ
  target_date : Date
  start_date : Date
  start_value : ℚ
deriving DecidableEq

/-- EnhancedCarbonTracker.set_goal: records the goal with
start_value = get_average_emissions(category) at creation time.
The creation day (datetime.now()) is passed in as start_date. -/
def set_goal (data : List Entry) (category : String) (target_value : ℚ)
    (target_date start_date : Date) : Goal :=
  { category := category
    target_value := target_value
    target_date := target_date
    start_date := start_date
    start_value := get_average_emissions data category }

/-- One element of the progress report built by track_goals. -/
structure ProgressEntry where
  category : String
  progress : ℚ
  target_date : Date
  current_value : ℚ
  target_value : ℚ
deriving DecidableEq

/-- The loop body of EnhancedCarbonTracker.track_goals for one goal:
current_value = get_average_emissions(category);
progress = 100 if start_value - target_value == 0, else
(total_reduction / target_reduction) * 100; the reported value is
min(100, max(0, progress)). -/
def goalProgress (data : List Entry) (g : Goal) : ProgressEntry :=
  let current_value := get_average_emissions data g.category
  let total_reduction := g.start_value - current_value
  let target_reduction := g.start_value - g.target_value
  let progress : ℚ :=
    if target_reduction = 0 then 100 else (total_reduction / target_reduction) * 100
  { category := g.category
    progress := min 100 (max 0 progress)
    target_date := g.target_date
    current_value := current_value
    target_value := g.target_value }

/-- EnhancedCarbonTracker.track_goals: one progress record per stored goal. -/
def track_goals (data : List Entry) (goals : List Goal) : List ProgressEntry :=
  goals.map (goalProgress data)

/-- Division instrumented to report an attempted division by zero. -/
def checkedDiv (a b : ℚ) : Option ℚ :=
  if b = 0 then none else some (a / b)

/-- The progress computation of track_goals with every division routed
through checkedDiv, so that a division by zero would surface as none. -/
def goalProgressChecked (data : List Entry) (g : Goal) : Option ℚ :=
  let current_value := get_average_emissions data g.category
  let total_reduction := g.start_value - current_value
  let target_reduction := g.start_value - g.target_value
  if target_reduction = 0 then some 100
  else (checkedDiv total_reduction target_reduction).map (fun r => min 100 (max 0 (r * 100)))

/-- df.sort_values('date'): entries in ascending date order (insertion
sort is stable, matching a stable sort of the dataframe rows). -/
def sortByDate (data : List Entry) : List Entry :=
  List.insertionSort (fun a b => a.date.key ≤ b.date.key) data

/-- df.tail(n): the last n rows (all rows when fewer). -/
def lastN (n : Nat) (l : List Entry) : List Entry :=
  l.drop (l.length - n)

/-- Series.diff() restricted to its non-NaN cells: the successive
differences of the list. -/
def diffs : List ℚ → List ℚ
  | a :: b :: rest => (b - a) :: diffs (b :: rest)
  | _ => []

/-- The total_emissions series of the trailing window used by the trend
insight: df.sort_values('date').tail(7)['total_emissions']. -/
def trendWindow (data : List Entry) : List ℚ :=
  (lastN 7 (sortByDate data)).map (fun e => e.total_emissions)

/-- The recent-trend value of get_insights:
df.sort_values('date').tail(7)['total_emissions'].diff().mean().
pandas mean skips the leading NaN of diff(), so the mean runs over the
n-1 successive differences; with fewer than 2 rows the mean of no
values is NaN, modelled as none. -/
def recent_trend (data : List Entry) : Option ℚ :=
  let d := diffs (trendWindow data)
  if d.length = 0 then none else some (d.sum / (d.length : ℚ))

/-- Series.idxmax() generalized: the first element attaining the maximum
of f (pandas idxmax returns the first occurrence of the maximum);
none on an empty series (pandas raises ValueError there). -/
def idxmaxBy {α : Type} (f : α → ℚ) : List α → Option α
  | [] => none
  | c :: rest =>
    match idxmaxBy f rest with
    | none => some c
    | some b => if f c < f b then some b else some c

/-- First-occurrence deduplication, preserving order. -/
def firstDedup : List String → List String
  | [] => []
  | c :: rest => c :: (firstDedup rest).filter (fun x => x ≠ c)

/-- The categories of the dataframe's emissions_* columns, in column
order: pd.DataFrame(records) appends a column when it is first seen,
so the order is the order of first appearance across entries. -/
def emissionsCols (data : List Entry) : List String :=
  firstDedup (data.flatMap (fun e => e.emissions.map Prod.fst))

/-- The per-column mean df[emissions_cols].mean() for one column that
exists in the dataframe: pandas skips NaN cells, so the mean runs over
the entries where the category is present. -/
def colMean (data : List Entry) (category : String) : ℚ :=
  (categoryValues data category).sum / ((categoryValues data category).length : ℚ)

/-- The dominant-category insight of get_insights:
df[emissions_cols].mean().idxmax(), mapped back to the category name.
none models the ValueError idxmax raises when there are no
emissions_* columns at all. -/
def highest_category (data : List Entry) : Option String :=
  idxmaxBy (colMean data) (emissionsCols data)

/-- The rows of the dataframe that fall in the given calendar month. -/
def monthlyEntries (data : List Entry) (year month : Nat) : List Entry :=
  data.filter (fun e => e.date.year = year ∧ e.date.month = month)

/-- The by_category part of the monthly report: for each factor-table
category whose emissions_* column exists in the dataframe (built from
ALL data, so out-of-month entries can create the column), the sum of
the column over the month's rows (pandas sum skips NaN, and sums an
all-NaN column to 0.0). -/
def monthlyByCategory (data monthly : List Entry) : List (String × ℚ) :=
  (emission_factors.map Prod.fst).filterMap (fun c =>
    if (categoryValues data c).isEmpty then none
    else some (c, (categoryValues monthly c).sum))

/-- Result of get_monthly_report: either the uncaught KeyError raised by
pd.to_datetime(df['date']) when the dataframe has no columns, the
sentinel string for an empty month, or the report record. -/
inductive MonthlyReportResult where
  | keyError
  | noData (msg : String)
  | report (total daily_average : ℚ) (highest_day : Date) (highest : ℚ)
      (by_category : List (String × ℚ))
deriving DecidableEq

/-- EnhancedCarbonTracker.get_monthly_report.  With no stored entries,
_get_dataframe() returns an empty dataframe with no columns and
df['date'] raises KeyError before the month filter runs.  Otherwise
the month's rows are selected; if none, the sentinel string is
returned; else the report is built (idxmaxBy is some exactly when the
month's rows are nonempty, mirroring the monthly_data.empty check). -/
def get_monthly_report (data : List Entry) (year month : Nat) : MonthlyReportResult :=
  if data.isEmpty then .keyError
  else
    let monthly := monthlyEntries data year month
    match idxmaxBy (fun e => e.total_emissions) monthly with
    | none => .noData "No data available for specified month"
    | some peak =>
      .report ((monthly.map (fun e => e.total_emissions)).sum)
        ((monthly.map (fun e => e.total_emissions)).sum / (monthly.length : ℚ))
        peak.date peak.total_emissions
        (monthlyByCategory data monthly)

/-- Result of get_insights: the sentinel string on an empty dataframe,
the uncaught ValueError from idxmax when no emissions_* column
exists, or the computed insight quantities (trend delta, peak day,
dominant category) that the formatted strings are built from. -/
inductive InsightsResult where
  | noData (msg : String)
  | valueError
  | insights (trend : Option ℚ) (peak_date : Date) (peak_value : ℚ) (dominant : String)
deriving DecidableEq

/-- EnhancedCarbonTracker.get_insights: empty dataframe gives the
sentinel string; otherwise the trend, the peak entry (idxmax over
total_emissions, first occurrence) and the dominant category are
computed; idxmax over an empty set of emissions_* columns raises
ValueError. -/
def get_insights (data : List Entry) : InsightsResult :=
  if data.isEmpty then .noData "No data available for insights"
  else
    match idxmaxBy (fun e => e.total_emissions) data, highest_category data with
    | some peak, some dom =>
      .insights (recent_trend data) peak.date peak.total_emissions dom
    | _, _ => .valueError

/-- Outcome of export_data: which file (if any) was written, and the
string the method returns. -/
structure ExportOutcome where
  fileWritten : Option String
  result : String
deriving DecidableEq

/-- EnhancedCarbonTracker.export_data: csv/excel/json each write a file;
any other format matches no branch, writes nothing, and the method
still returns the success message 'Data exported to <filename>.<format>'. -/
def export_data (format filename : String) : ExportOutcome :=
  let written : Option String :=
    if format = "csv" then some (filename ++ ".csv")
    else if format = "excel" then some (filename ++ ".xlsx")
    else if format = "json" then some (filename ++ ".json")
    else none
  { fileWritten := written
    result := "Data exported to " ++ filename ++ "." ++ format }

/-- The format dispatch of EnhancedCarbonTracker.import_data on the file
extension: .csv and .xlsx are read; anything else raises
ValueError('Unsupported file format'). -/
def import_dispatch (ext : String) : Except String Unit :=
  if ext = ".csv" then .ok ()
  else if ext = ".xlsx" then .ok ()
  else .error "Unsupported file format"

/-! ### Helper lemmas -/

/-- Looking a category up in the emissions dict built by add_entry:
the input value bound first, times its factor, when the category is in
the factor table; absent otherwise. -/
theorem lookupFirst_computeEmissions (kwargs : List (String × ℚ)) (c : String) :
    lookupFirst c (computeEmissions kwargs)
      = (lookupFirst c kwargs).bind
          (fun v => (lookupFirst c emission_factors).map (fun f => v * f)) := by
  induction kwargs with
  | nil => simp [computeEmissions, lookupFirst]
  | cons p rest ih =>
    have hstep : computeEmissions (p :: rest)
        = match lookupFirst p.1 emission_factors with
          | some f => (p.1, p.2 * f) :: computeEmissions rest
          | none => computeEmissions rest := by
      cases hf : lookupFirst p.1 emission_factors <;>
        simp only [computeEmissions, List.filterMap_cons, hf]
    rw [hstep]
    by_cases hc : p.1 = c
    · subst hc
      cases hf : lookupFirst p.1 emission_factors with
      | some f =>
        rw [lookupFirst, lookupFirst, if_pos rfl, if_pos rfl]
        rfl
      | none =>
        rw [lookupFirst, if_pos rfl]
        simp only [ih, hf]
        cases lookupFirst p.1 rest <;> rfl
    · cases hf : lookupFirst p.1 emission_factors with
      | some f =>
        rw [lookupFirst, lookupFirst, if_neg hc, if_neg hc, ih]
      | none =>
        rw [lookupFirst, if_neg hc, ih]

/-- The emissions column of a category, rewritten as a map over the
entries where the category is present. -/
theorem categoryValues_eq_filter_map (data : List Entry) (c : String) :
    categoryValues data c
      = (data.filter (fun e => (lookupFirst c e.emissions).isSome)).map
          (fun e => (lookupFirst c e.emissions).getD 0) := by
  induction data with
  | nil => rfl
  | cons e rest ih =>
    cases h : lookupFirst c e.emissions with
    | some v =>
      simp only [categoryValues, List.filterMap_cons, List.filter_cons, h] at ih ⊢
      simp [ih, h]
    | none =>
      simp only [categoryValues, List.filterMap_cons, List.filter_cons, h] at ih ⊢
      simp [ih]

/-- diff produces one fewer cell than its input series. -/
theorem diffs_length : ∀ w : List ℚ, (diffs w).length = w.length - 1
  | [] => rfl
  | [_] => rfl
  | a :: b :: rest => by
    rw [diffs]
    have := diffs_length (b :: rest)
    simp only [List.length_cons] at this ⊢
    omega

/-- Successive differences of a strictly increasing series are positive. -/
theorem diffs_pos : ∀ w : List ℚ, w.Chain' (fun a b => a < b) → ∀ x ∈ diffs w, 0 < x
  | [], _, x, hx => by simp [diffs] at hx
  | [_], _, x, hx => by simp [diffs] at hx
  | a :: b :: rest, h, x, hx => by
    rw [diffs] at hx
    rcases List.mem_cons.mp hx with h1 | h1
    · have hab : a < b := (List.chain'_cons.mp h).1
      subst h1; linarith
    · exact diffs_pos (b :: rest) (List.chain'_cons.mp h).2 x h1

/-- Successive differences of a constant series are zero. -/
theorem diffs_zero : ∀ w : List ℚ, w.Chain' (fun a b => a = b) → ∀ x ∈ diffs w, x = 0
  | [], _, x, hx => by simp [diffs] at hx
  | [_], _, x, hx => by simp [diffs] at hx
  | a :: b :: rest, h, x, hx => by
    rw [diffs] at hx
    rcases List.mem_cons.mp hx with h1 | h1
    · have hab : a = b := (List.chain'_cons.mp h).1
      subst h1; simp [hab]
    · exact diffs_zero (b :: rest) (List.chain'_cons.mp h).2 x h1

/-- Unfolding of idxmaxBy on a nonempty series. -/
theorem idxmaxBy_cons {α : Type} (f : α → ℚ) (c : α) (rest : List α) :
    idxmaxBy f (c :: rest)
      = match idxmaxBy f rest with
        | none => some c
        | some b => if f c < f b then some b else some c := rfl

/-- idxmaxBy yields a value on every nonempty series. -/
theorem idxmaxBy_cons_isSome {α : Type} (f : α → ℚ) (x : α) (l : List α) :
    (idxmaxBy f (x :: l)).isSome := by
  rw [idxmaxBy_cons]
  cases idxmaxBy f l with
  | none => rfl
  | some b => by_cases h : f x < f b <;> simp [h]

/-- idxmaxBy returns the first element attaining the maximum: everything
before it is strictly below, everything after it is no larger. -/
theorem idxmaxBy_first_max {α : Type} (f : α → ℚ) :
    ∀ l : List α, l ≠ [] →
      ∃ c l1 l2, idxmaxBy f l = some c ∧ l = l1 ++ c :: l2 ∧
        (∀ x ∈ l1, f x < f c) ∧ (∀ x ∈ l2, f x ≤ f c)
  | [], h => absurd rfl h
  | c :: rest, _ => by
    cases hb : idxmaxBy f rest with
    | none =>
      have hrest : rest = [] := by
        cases rest with
        | nil => rfl
        | cons r rtl =>
          have := idxmaxBy_cons_isSome f r rtl
          rw [hb] at this
          simp at this
      subst hrest
      exact ⟨c, [], [], rfl, rfl, by simp, by simp⟩
    | some b =>
      have hne : rest ≠ [] := by
        intro h; subst h; simp [idxmaxBy] at hb
      obtain ⟨b2, l1, l2, hb2, hsplit, hlt, hle⟩ := idxmaxBy_first_max f rest hne
      have hbb : b2 = b := by
        rw [hb] at hb2
        exact (Option.some.inj hb2).symm
      subst hbb
      by_cases hcb : f c < f b2
      · refine ⟨b2, c :: l1, l2, ?_, ?_, ?_, hle⟩
        · rw [idxmaxBy_cons, hb]
          simp [hcb]
        · simp [hsplit]
        · intro x hx
          rcases List.mem_cons.mp hx with h1 | h1
          · subst h1; exact hcb
          · exact hlt x h1
      · refine ⟨c, [], rest, ?_, rfl, by simp, ?_⟩
        · rw [idxmaxBy_cons, hb]
          simp [hcb]
        · intro x hx
          have hbc : f b2 ≤ f c := not_lt.mp hcb
          rw [hsplit] at hx
          rcases List.mem_append.mp hx with h1 | h1
          · exact le_of_lt (lt_of_lt_of_le (hlt x h1) hbc)
          · rcases List.mem_cons.mp h1 with h2 | h2
            · subst h2; exact hbc
            · exact le_trans (hle x h2) hbc

/-! ### Claim theorems -/

/-- C1: for every entry built by add_entry and every category bound (to v)
in the inputs: when the category has a factor f in the table, the
entry's emissions for it are exactly v * f (also for negative v, which
propagates linearly); when the category has no factor, it is absent
from the emissions dict while still present in the inputs dict. -/
theorem add_entry_emissions_spec (d : Date) (kwargs : List (String × ℚ))
    (c : String) (v : ℚ) (hv : lookupFirst c kwargs = some v) :
    (∀ f, lookupFirst c emission_factors = some f →
        lookupFirst c (add_entry d kwargs).emissions = some (v * f)) ∧
    (lookupFirst c emission_factors = none →
        lookupFirst c (add_entry d kwargs).emissions = none ∧
        lookupFirst c (add_entry d kwargs).inputs = some v) := by
  constructor
  · intro f hf
    show lookupFirst c (computeEmissions kwargs) = some (v * f)
    rw [lookupFirst_computeEmissions, hv, hf]
    rfl
  · intro hf
    constructor
    · show lookupFirst c (computeEmissions kwargs) = none
      rw [lookupFirst_computeEmissions, hv, hf]
      rfl
    · exact hv

/-- Witness for C1 at a concrete entry: a negative electricity input of
-10 kWh yields emissions -10 * 0.4 = -4, and the unknown category
'mystery' is dropped from emissions but kept in inputs. -/
theorem add_entry_emissions_spec_witness :
    lookupFirst "electricity"
        (add_entry ⟨2024, 1, 1⟩ [("electricity", -10), ("mystery", 3)]).emissions
      = some (-4) ∧
    lookupFirst "mystery"
        (add_entry ⟨2024, 1, 1⟩ [("electricity", -10), ("mystery", 3)]).emissions
      = none ∧
    lookupFirst "mystery"
        (add_entry ⟨2024, 1, 1⟩ [("electricity", -10), ("mystery", 3)]).inputs
      = some 3 := by
  have h1 := (add_entry_emissions_spec ⟨2024, 1, 1⟩ [("electricity", -10), ("mystery", 3)]
    "electricity" (-10) (by simp [lookupFirst])).1 (2/5) (by simp [lookupFirst, emission_factors])
  have h2 := (add_entry_emissions_spec ⟨2024, 1, 1⟩ [("electricity", -10), ("mystery", 3)]
    "mystery" 3 (by simp [lookupFirst])).2 (by simp [lookupFirst, emission_factors])
  refine ⟨?_, h2.1, h2.2⟩
  rw [h1]
  norm_num

/-- C2: every entry built by add_entry has total_emissions equal to the
sum of the values of its emissions dict; in particular the total is 0
for an empty input mapping and 0 when every input category is absent
from the factor table. -/
theorem add_entry_total_spec (d : Date) (kwargs : List (String × ℚ)) :
    (add_entry d kwargs).total_emissions
        = ((add_entry d kwargs).emissions.map Prod.snd).sum ∧
    (kwargs = [] → (add_entry d kwargs).total_emissions = 0) ∧
    ((∀ p ∈ kwargs, lookupFirst p.1 emission_factors = none) →
        (add_entry d kwargs).total_emissions = 0) := by
  refine ⟨rfl, ?_, ?_⟩
  · rintro rfl
    rfl
  · intro h
    have hnil : computeEmissions kwargs = [] := by
      rw [computeEmissions, List.filterMap_eq_nil_iff]
      intro p hp
      rw [h p hp]
    show ((computeEmissions kwargs).map Prod.snd).sum = 0
    rw [hnil]
    rfl

/-- Witness for C2 at a concrete entry whose only categories are unknown:
the total is 0. -/
theorem add_entry_total_spec_witness :
    (add_entry ⟨2024, 1, 1⟩ [("foo", 5), ("bar", -2)]).total_emissions = 0 :=
  (add_entry_total_spec ⟨2024, 1, 1⟩ [("foo", 5), ("bar", -2)]).2.2
    (by simp [lookupFirst, emission_factors])

/-- C5: every progress record reported by track_goals carries
progress = 100 when start_value - target_value = 0, and otherwise
progress = clamp((start_value - current_value) / (start_value - target_value) * 100, 0, 100);
the reported progress always lies in [0, 100]. -/
theorem track_goals_progress_spec (data : List Entry) (goals : List Goal)
    (g : Goal) (hg : g ∈ goals) :
    goalProgress data g ∈ track_goals data goals ∧
    (g.start_value - g.target_value = 0 → (goalProgress data g).progress = 100) ∧
    (g.start_value - g.target_value ≠ 0 →
        (goalProgress data g).progress
          = min 100 (max 0 ((g.start_value - get_average_emissions data g.category)
              / (g.start_value - g.target_value) * 100))) ∧
    0 ≤ (goalProgress data g).progress ∧ (goalProgress data g).progress ≤ 100 := by
  refine ⟨List.mem_map_of_mem _ hg, ?_, ?_, ?_, ?_⟩
  · intro h
    simp only [goalProgress, if_pos h]
    norm_num
  · intro h
    simp only [goalProgress, if_neg h]
  · simp only [goalProgress]
    exact le_min (by norm_num) (le_max_left _ _)
  · simp only [goalProgress]
    exact min_le_left _ _

/-- Witness for C5 at a concrete goal with start_value = target_value = 5
over an empty entry collection: the reported progress is 100 and lies
in [0, 100]. -/
theorem track_goals_progress_spec_witness :
    (goalProgress [] ⟨"electricity", 5, ⟨2024, 12, 31⟩, ⟨2024, 1, 1⟩, 5⟩).progress = 100 ∧
    0 ≤ (goalProgress [] ⟨"electricity", 5, ⟨2024, 12, 31⟩, ⟨2024, 1, 1⟩, 5⟩).progress ∧
    (goalProgress [] ⟨"electricity", 5, ⟨2024, 12, 31⟩, ⟨2024, 1, 1⟩, 5⟩).progress ≤ 100 := by
  have h := track_goals_progress_spec []
    [⟨"electricity", 5, ⟨2024, 12, 31⟩, ⟨2024, 1, 1⟩, 5⟩]
    ⟨"electricity", 5, ⟨2024, 12, 31⟩, ⟨2024, 1, 1⟩, 5⟩ (by simp)
  exact ⟨h.2.1 (by norm_num), h.2.2.2⟩

/-- C10: the division in the goal-progress computation happens only on
the branch where the denominator start_value - target_value is
nonzero: the checked computation, which routes every division through
checkedDiv, never surfaces a division by zero and always returns
exactly the progress value that track_goals reports. -/
theorem goal_progress_no_div_by_zero (data : List Entry) (g : Goal) :
    goalProgressChecked data g = some (goalProgress data g).progress := by
  by_cases h : g.start_value - g.target_value = 0
  · simp only [goalProgressChecked, goalProgress, if_pos h]
    norm_num
  · simp only [goalProgressChecked, goalProgress, if_neg h, checkedDiv]
    rfl

/-- A stored entry whose electricity emissions are 10 (input 25 kWh
times factor 0.4), as add_entry would persist it. -/
def entryElecTen : Entry :=
  { date := ⟨2024, 1, 2⟩
    inputs := [("electricity", 25)]
    emissions := [("electricity", 10)]
    total_emissions := 10 }

/-- A stored goal whose target (10) lies above its recorded start
value (5): an increase goal, with target_reduction = -5. -/
def goalIncrease : Goal :=
  { category := "electricity"
    target_value := 10
    target_date := ⟨2024, 12, 31⟩
    start_date := ⟨2024, 1, 1⟩
    start_value := 5 }

/-- C6 counterexample: for the stored goal with start_value 5 and
target_value 10 (target_reduction = -5 ≠ 0) and a current average of
10 ≥ start_value, the reported progress is 100, not the 0 the claim
requires for current_value ≥ start_value. -/
theorem goal_progress_zero_clause_counterexample :
    goalIncrease.start_value - goalIncrease.target_value ≠ 0 ∧
    goalIncrease.start_value ≤ get_average_emissions [entryElecTen] goalIncrease.category ∧
    (goalProgress [entryElecTen] goalIncrease).progress = 100 := by
  have havg : get_average_emissions [entryElecTen] "electricity" = 10 := by
    simp [get_average_emissions, categoryValues, entryElecTen, lookupFirst]
  refine ⟨by norm_num [goalIncrease], ?_, ?_⟩
  · rw [show goalIncrease.category = "electricity" from rfl, havg]
    norm_num [goalIncrease]
  · simp only [goalProgress, goalIncrease, havg]
    norm_num

/-- C6 amended: for every reduction goal (start_value > target_value,
hence target_reduction ≠ 0), the reported progress is exactly 100
whenever current_value ≤ target_value, and exactly 0 whenever
current_value ≥ start_value. -/
theorem goal_progress_endpoint_spec (data : List Entry) (g : Goal)
    (hred : g.target_value < g.start_value) :
    (get_average_emissions data g.category ≤ g.target_value →
        (goalProgress data g).progress = 100) ∧
    (g.start_value ≤ get_average_emissions data g.category →
        (goalProgress data g).progress = 0) := by
  have hpos : (0 : ℚ) < g.start_value - g.target_value := by linarith
  have hne : g.start_value - g.target_value ≠ 0 := ne_of_gt hpos
  constructor
  · intro hc
    simp only [goalProgress, if_neg hne]
    have hr : 1 ≤ (g.start_value - get_average_emissions data g.category)
        / (g.start_value - g.target_value) := (one_le_div hpos).mpr (by linarith)
    have hx : (100 : ℚ) ≤ (g.start_value - get_average_emissions data g.category)
        / (g.start_value - g.target_value) * 100 := by nlinarith
    rw [max_eq_right (by linarith), min_eq_left hx]
  · intro hc
    simp only [goalProgress, if_neg hne]
    have hr : (g.start_value - get_average_emissions data g.category)
        / (g.start_value - g.target_value) ≤ 0 :=
      div_nonpos_of_nonpos_of_nonneg (by linarith) (le_of_lt hpos)
    have hx : (g.start_value - get_average_emissions data g.category)
        / (g.start_value - g.target_value) * 100 ≤ 0 := by nlinarith
    rw [max_eq_left hx]
    norm_num

/-- A stored entry whose electricity emissions are 4 (input 10 kWh times
factor 0.4), as add_entry would persist it. -/
def entryElecFour : Entry :=
  { date := ⟨2024, 1, 3⟩
    inputs := [("electricity", 10)]
    emissions := [("electricity", 4)]
    total_emissions := 4 }

/-- A stored reduction goal: from a start average of 10 down to 4. -/
def goalReduce : Goal :=
  { category := "electricity"
    target_value := 4
    target_date := ⟨2024, 12, 31⟩
    start_date := ⟨2024, 1, 1⟩
    start_value := 10 }

/-- Witness for the amended C6 at concrete data: with the current average
at the target (4) the reduction goal reports 100; with the current
average back at the start (10) it reports 0. -/
theorem goal_progress_endpoint_spec_witness :
    (goalProgress [entryElecFour] goalReduce).progress = 100 ∧
    (goalProgress [entryElecTen] goalReduce).progress = 0 := by
  constructor
  · refine (goal_progress_endpoint_spec [entryElecFour] goalReduce
      (by norm_num [goalReduce])).1 ?_
    have : get_average_emissions [entryElecFour] "electricity" = 4 := by
      simp [get_average_emissions, categoryValues, entryElecFour, lookupFirst]
    rw [show goalReduce.category = "electricity" from rfl, this]
    norm_num [goalReduce]
  · refine (goal_progress_endpoint_spec [entryElecTen] goalReduce
      (by norm_num [goalReduce])).2 ?_
    have : get_average_emissions [entryElecTen] "electricity" = 10 := by
      simp [get_average_emissions, categoryValues, entryElecTen, lookupFirst]
    rw [show goalReduce.category = "electricity" from rfl, this]
    norm_num [goalReduce]

/-- C4: the recent trend is the mean of the successive differences of
total_emissions over the last 7 entries (all if fewer) in ascending
date order; whenever that window holds at least 2 entries, a strictly
increasing total_emissions series gives a strictly positive trend and
a constant series gives exactly 0. -/
theorem recent_trend_spec (data : List Entry)
    (hlen : 2 ≤ (trendWindow data).length) :
    ((trendWindow data).Chain' (fun a b => a < b) →
        ∃ t, recent_trend data = some t ∧ 0 < t) ∧
    ((trendWindow data).Chain' (fun a b => a = b) →
        recent_trend data = some 0) := by
  have hdlen : (diffs (trendWindow data)).length = (trendWindow data).length - 1 :=
    diffs_length _
  have hdne : (diffs (trendWindow data)).length ≠ 0 := by omega
  have hne : diffs (trendWindow data) ≠ [] := by
    intro h
    rw [h] at hdne
    exact hdne rfl
  constructor
  · intro hchain
    refine ⟨(diffs (trendWindow data)).sum / ((diffs (trendWindow data)).length : ℚ),
      ?_, ?_⟩
    · simp only [recent_trend, if_neg hdne]
    · apply div_pos
      · exact List.sum_pos _ (diffs_pos _ hchain) hne
      · exact_mod_cast Nat.pos_of_ne_zero hdne
  · intro hchain
    have hsum : (diffs (trendWindow data)).sum = 0 :=
      List.sum_eq_zero (diffs_zero _ hchain)
    simp only [recent_trend, if_neg hdne, hsum, zero_div]

/-- Three stored entries on consecutive days with strictly increasing
totals 1, 2, 3. -/
def trendIncData : List Entry :=
  [{ date := ⟨2024, 1, 1⟩, inputs := [], emissions := [], total_emissions := 1 },
   { date := ⟨2024, 1, 2⟩, inputs := [], emissions := [], total_emissions := 2 },
   { date := ⟨2024, 1, 3⟩, inputs := [], emissions := [], total_emissions := 3 }]

/-- Two stored entries on consecutive days with the constant total 5. -/
def trendConstData : List Entry :=
  [{ date := ⟨2024, 1, 1⟩, inputs := [], emissions := [], total_emissions := 5 },
   { date := ⟨2024, 1, 2⟩, inputs := [], emissions := [], total_emissions := 5 }]

/-- Witness for C4 at concrete data: the increasing series 1, 2, 3 gives
a strictly positive trend, and the constant series 5, 5 gives 0. -/
theorem recent_trend_spec_witness :
    (∃ t, recent_trend trendIncData = some t ∧ 0 < t) ∧
    recent_trend trendConstData = some 0 := by
  have hinc : trendWindow trendIncData = [1, 2, 3] := by
    simp [trendWindow, lastN, sortByDate, trendIncData, List.insertionSort,
      List.orderedInsert, Date.key]
  have hconst : trendWindow trendConstData = [5, 5] := by
    simp [trendWindow, lastN, sortByDate, trendConstData, List.insertionSort,
      List.orderedInsert, Date.key]
  constructor
  · refine (recent_trend_spec trendIncData (by rw [hinc]; norm_num)).1 ?_
    rw [hinc]
    simp [List.chain'_cons]
    norm_num
  · refine (recent_trend_spec trendConstData (by rw [hconst]; norm_num)).2 ?_
    rw [hconst]
    simp [List.chain'_cons]

/-- A stored entry recording water before electricity, with tied
emissions 1.2 each (inputs 4 m³ of water and 3 kWh of electricity),
as add_entry would persist it. -/
def entryTie : Entry :=
  { date := ⟨2024, 1, 1⟩
    inputs := [("water", 4), ("electricity", 3)]
    emissions := [("water", 6/5), ("electricity", 6/5)]
    total_emissions := 12/5 }

/-- C7 counterexample: on the single entry with tied mean emissions for
water and electricity, the insight engine reports water — the column
that appears first — although electricity is the lexicographically
lowest tied category, contradicting the claimed tie-break. -/
theorem dominant_category_tiebreak_counterexample :
    colMean [entryTie] "water" = colMean [entryTie] "electricity" ∧
    "electricity" < "water" ∧
    highest_category [entryTie] = some "water" := by
  have hw : colMean [entryTie] "water" = 6/5 := by
    simp [colMean, categoryValues, entryTie, lookupFirst]
  have he : colMean [entryTie] "electricity" = 6/5 := by
    simp [colMean, categoryValues, entryTie, lookupFirst]
  refine ⟨by rw [hw, he], by rw [String.lt_iff_toList_lt]; decide, ?_⟩
  have hcols : emissionsCols [entryTie] = ["water", "electricity"] := by
    simp [emissionsCols, entryTie, firstDedup]
  rw [highest_category, hcols]
  rw [idxmaxBy_cons, idxmaxBy_cons]
  simp only [idxmaxBy, hw, he]
  norm_num

/-- C7 amended: for every entry collection with at least one recorded
known category, the dominant category reported by the insight engine
is the emissions column with the highest mean (over the entries where
the category is present); ties are broken deterministically by column
order, i.e. by first appearance of the category across the stored
entries, not lexicographically. -/
theorem dominant_category_spec (data : List Entry)
    (h : emissionsCols data ≠ []) :
    ∃ c l1 l2, highest_category data = some c ∧
      emissionsCols data = l1 ++ c :: l2 ∧
      (∀ x ∈ l1, colMean data x < colMean data c) ∧
      (∀ x ∈ l2, colMean data x ≤ colMean data c) :=
  idxmaxBy_first_max (colMean data) (emissionsCols data) h

/-- Witness for the amended C7 at the concrete tied entry. -/
theorem dominant_category_spec_witness :
    ∃ c l1 l2, highest_category [entryTie] = some c ∧
      emissionsCols [entryTie] = l1 ++ c :: l2 ∧
      (∀ x ∈ l1, colMean [entryTie] x < colMean [entryTie] c) ∧
      (∀ x ∈ l2, colMean [entryTie] x ≤ colMean [entryTie] c) :=
  dominant_category_spec [entryTie] (by simp [emissionsCols, entryTie, firstDedup])

/-- C8: the average emissions of a category equal the arithmetic mean of
emissions[category] over exactly the entries whose emissions dict has
the category, and 0 when no entry ever recorded it; set_goal stores
this value as start_value, and the progress computation uses it as
current_value. -/
theorem average_emissions_spec (data : List Entry) (category : String)
    (target_value : ℚ) (td sd : Date) :
    (data.filter (fun e => (lookupFirst category e.emissions).isSome) = [] →
        get_average_emissions data category = 0) ∧
    (data.filter (fun e => (lookupFirst category e.emissions).isSome) ≠ [] →
        get_average_emissions data category
          = ((data.filter (fun e => (lookupFirst category e.emissions).isSome)).map
                (fun e => (lookupFirst category e.emissions).getD 0)).sum
            / ((data.filter (fun e => (lookupFirst category e.emissions).isSome)).length : ℚ)) ∧
    (set_goal data category target_value td sd).start_value
        = get_average_emissions data category ∧
    (∀ g : Goal, g.category = category →
        (goalProgress data g).current_value = get_average_emissions data category) := by
  have hcv := categoryValues_eq_filter_map data category
  refine ⟨?_, ?_, rfl, ?_⟩
  · intro h
    rw [get_average_emissions, if_pos]
    rw [hcv, h]
    rfl
  · intro h
    have hne : categoryValues data category ≠ [] := by
      rw [hcv]
      simpa using h
    rw [get_average_emissions, if_neg hne, hcv]
    rw [List.length_map]
  · intro g hg
    simp only [goalProgress, hg]

/-- Witness for C8 at concrete data: the average for electricity over the
one entry recording it is 10, and the average for food, which no
entry recorded, is 0. -/
theorem average_emissions_spec_witness :
    get_average_emissions [entryElecTen] "food" = 0 ∧
    get_average_emissions [entryElecTen] "electricity"
      = (([entryElecTen].filter
            (fun e => (lookupFirst "electricity" e.emissions).isSome)).map
          (fun e => (lookupFirst "electricity" e.emissions).getD 0)).sum
        / (([entryElecTen].filter
            (fun e => (lookupFirst "electricity" e.emissions).isSome)).length : ℚ) := by
  constructor
  · exact (average_emissions_spec [entryElecTen] "food" 0 ⟨2024, 1, 1⟩ ⟨2024, 1, 1⟩).1
      (by simp [entryElecTen, lookupFirst])
  · exact (average_emissions_spec [entryElecTen] "electricity" 0
      ⟨2024, 1, 1⟩ ⟨2024, 1, 1⟩).2.1 (by simp [entryElecTen, lookupFirst])

/-- C3: evaluation of the empty-dataset behavior.  With no stored entries
at all, get_monthly_report raises an uncaught KeyError (pd.to_datetime
is applied to the missing 'date' column of an empty dataframe) instead
of returning a checkable result — the month filter is never reached.
The sentinel is returned only when the collection is nonempty and the
requested month has no entries; get_insights does check for the empty
dataframe first and returns its sentinel. -/
theorem empty_dataset_report_behavior :
    get_monthly_report [] 2024 1 = .keyError ∧
    get_monthly_report [entryElecTen] 2023 5
      = .noData "No data available for specified month" ∧
    get_insights [] = .noData "No data available for insights" := by
  refine ⟨rfl, ?_, rfl⟩
  have hm : monthlyEntries [entryElecTen] 2023 5 = [] := by
    simp [monthlyEntries, entryElecTen]
  rw [get_monthly_report]
  simp [hm, idxmaxBy]

/-- C9: evaluation at the failing input.  Exporting with the unrecognized
format 'xml' matches no branch: no file is written, yet the success
message 'Data exported to f.xml' is returned — the failure is silent.
Importing an unrecognized extension does raise the ValueError, and a
recognized export format writes its file. -/
theorem export_unknown_format_behavior :
    export_data "xml" "f"
      = { fileWritten := none, result := "Data exported to f.xml" } ∧
    import_dispatch ".txt" = .error "Unsupported file format" ∧
    export_data "csv" "f"
      = { fileWritten := some "f.csv", result := "Data exported to f.csv" } := by
  refine ⟨?_, ?_, ?_⟩ <;> simp [export_data, import_dispatch]
